import Mathlib

/-!
# Vent-Engine: verification of the asset-loading pipeline and the Wayland
window backend

Shallow embedding of `crates/vent-assets/src/model/gltf.rs` (the glTF
model loader) and `crates/vent-window/src/platform/wayland/mod.rs` (the
Wayland platform window backend), together with theorems about the
spec-level properties of these components.

Conventions of the embedding:
* Rust panics (`unwrap`, `expect`, out-of-bounds indexing) are modelled by
  `Option`: a result of `none` means the code aborts, `some` is normal
  completion.
* `f32` scalar values are only ever copied from the parsed document into
  vertex/material records (no arithmetic is performed on them), so they are
  modelled by the abstract carrier `Scalar := Int`; the zero default of
  `Default::default()` is `0`.
* Side effects on the GPU (buffer/image/descriptor allocation, descriptor
  writes) are reified: the functions return records describing the
  resources created and the descriptor writes issued, in order.
-/

namespace VentAssets

/-- Values of type `f32` are moved verbatim and zero-initialized, never computed
with; they are modelled by an abstract carrier with a zero. -/
abbrev Scalar := Int

/-- A 3-component vector (`[f32; 3]`). -/
abbrev V3 := Scalar × Scalar × Scalar

/-- A 2-component vector (`[f32; 2]`). -/
abbrev V2 := Scalar × Scalar

/-- The record `vent_rendering::Vertex3D` as constructed in `load_primitive`:
`{ position, tex_coord, normal }`. -/
structure Vertex3D where
  position : V3
  tex_coord : V2
  normal : V3
  deriving Repr, DecidableEq

/-- The record `Material { base_color: [f32; 4] }` (gltf.rs line 159). -/
structure Material where
  base_color : Scalar × Scalar × Scalar × Scalar
  deriving Repr, DecidableEq

/-- A decoded image, an opaque handle produced by the external `image`
crate decoder. -/
abbrev DecodedImage := Nat

/-- glTF texture sampler data, opaque (sampler conversion is a pure
lookup table outside the scope of the claims; the value is only passed along). -/
abbrev SamplerInfo := Unit

/-- The type `gltf::image::Source`: an embedded buffer view with a MIME type, or a
URI with an optional MIME type. -/
inductive ImageSource where
  | view (bufferIndex : Nat) (mimeType : String)
  | uri (path : String) (mimeType : Option String)
  deriving Repr, DecidableEq

/-- The material slot of a primitive: optional base-color texture plus the
base-color factor (`pbr_metallic_roughness`). -/
structure MaterialDef where
  baseColorTexture : Option ImageSource
  baseColorFactor : Scalar × Scalar × Scalar × Scalar
  deriving Repr, DecidableEq

/-- One glTF mesh primitive as seen through `primitive.reader(..)`:
`read_positions`, `read_normals`, `read_tex_coords(0)` and `read_indices`
each yield `none` when the accessor is absent. -/
structure Primitive where
  positions : Option (List V3)
  normals : Option (List V3)
  texCoords : Option (List V2)
  indices : Option (List Nat)
  material : MaterialDef
  deriving Repr, DecidableEq

/-- The type `VulkanImage`: either decoded pixels uploaded with an optional sampler
(`VulkanImage::from_image`), or a solid-color image of a given extent
(`VulkanImage::from_color`). -/
inductive VulkanImage where
  | fromImage (img : DecodedImage) (sampler : Option SamplerInfo)
  | fromColor (rgba : Nat × Nat × Nat × Nat) (width height : Nat)
  deriving Repr, DecidableEq

/-- A per-frame uniform buffer created by `VulkanBuffer::new_init_type`,
holding one `Material` record. -/
structure VulkanBuffer where
  data : Material
  deriving Repr, DecidableEq

/-- The slice of `VulkanInstance` the loader reads: the swapchain image
list (only its length is used) and the external image decoder, which
returns `none` when the MIME type is unrecognized or decoding fails
(`ImageFormat::from_mime_type(..).expect(..)` / `image::load(..).unwrap()`
panic in the source; `none` models that abort). -/
structure VulkanInstance where
  swapchainImages : List Unit
  decodeView : Nat → String → Option DecodedImage
  decodeFile : String → Option String → Option DecodedImage

/-- A descriptor-set handle; `allocate_descriptor_sets` hands out `count`
distinct handles, modelled as `0, 1, ..., count-1` in allocation order. -/
abbrev DescriptorSet := Nat

/-- The operation `VulkanInstance::allocate_descriptor_sets(device, pool, layout, count)`
(external collaborator): allocates `count` fresh descriptor sets. -/
def allocate_descriptor_sets (count : Nat) : List DescriptorSet :=
  List.range count

/-- The enum `vk::DescriptorType` as used in `write_sets`. -/
inductive DescriptorType where
  | uniformBuffer
  | combinedImageSampler
  deriving Repr, DecidableEq

/-- The resource a descriptor write points at: the `i`-th per-frame
uniform buffer, or a texture image. -/
inductive WriteInfo where
  | bufferIdx (i : Nat)
  | image (img : VulkanImage)
  deriving Repr, DecidableEq

/-- One `vk::WriteDescriptorSet` as built in `write_sets`. -/
structure WriteDescriptorSet where
  dst_set : DescriptorSet
  dst_binding : Nat
  descriptor_count : Nat
  descriptor_type : DescriptorType
  info : WriteInfo
  deriving Repr, DecidableEq

/-- The constructor `Mesh3D::new(device, allocator, vertices, indices, bind_group, name)`.
Modelled from the spec: `Mesh3D` lives in the `vent-assets` crate outside
the sampled files; per spec section 3 a Mesh is the GPU-resident vertex
buffer, index buffer, optional descriptor-set group and optional name, so
it is modelled as a record of exactly the data handed to `Mesh3D::new`. -/
structure Mesh3D where
  vertices : List Vertex3D
  indices : List Nat
  bind_group : Option (List DescriptorSet)
  name : Option String
  deriving Repr, DecidableEq

/-- The record `Model3D { meshes }`. -/
structure Model3D where
  meshes : List Mesh3D
  deriving Repr, DecidableEq

namespace GLTFLoader

/-- The vertex-overlay loop of `load_primitive`
(`for (i, n) in attribute.enumerate() { vertices[i].field = n }`):
assigns `upd v a` at index `i` for each attribute entry `a`; indexing past
the end of `vertices` is the Rust panic, modelled as `none`. Entries of
`vertices` beyond the attribute list are kept unchanged. -/
def overlay (upd : Vertex3D → α → Vertex3D) :
    List Vertex3D → List α → Option (List Vertex3D)
  | vs, [] => some vs
  | [], _ :: _ => none
  | v :: vs, a :: as_ =>
      (overlay upd vs as_).map (fun rest => upd v a :: rest)

/-- The vertex-assembly part of `load_primitive` (gltf.rs lines 323-345):
positions are mandatory (`read_positions().unwrap()`), each yielding a
vertex with zero-default `tex_coord` and `normal`; then the normal and
texture-coordinate accessors, when present, overlay the vertex vector by
attribute index. -/
def load_vertices (primitive : Primitive) : Option (List Vertex3D) := do
  let positions ← primitive.positions
  let vertices : List Vertex3D := positions.map (fun position =>
    { position := position, tex_coord := (0, 0), normal := (0, 0, 0) })
  let vertices ← match primitive.normals with
    | none => some vertices
    | some ns => overlay (fun v n => { v with normal := n }) vertices ns
  let vertices ← match primitive.texCoords with
    | none => some vertices
    | some ts => overlay (fun v t => { v with tex_coord := t }) vertices ts
  pure vertices

/-- Embeds `GLTFLoader::load_primitive` (gltf.rs lines 316-357): assembles the
vertex list, reads the mandatory index accessor
(`read_indices().unwrap()`), and builds the `Mesh3D`. -/
def load_primitive (bind_group : List DescriptorSet) (name : Option String)
    (primitive : Primitive) : Option Mesh3D := do
  let vertices ← load_vertices primitive
  let indices ← primitive.indices
  pure { vertices := vertices, indices := indices,
         bind_group := some bind_group, name := name }

/-- Embeds `GLTFLoader::create_uniform_buffers` (gltf.rs lines 168-183): one
uniform buffer initialized with the `Material` record per swapchain
image. -/
def create_uniform_buffers (inst : VulkanInstance) (material : Material) :
    List VulkanBuffer :=
  (List.range inst.swapchainImages.length).map (fun _ => { data := material })

/-- One iteration body of the `write_sets` loop (gltf.rs lines 197-257):
the four `vk::WriteDescriptorSet` records built for loop index `i`. Every
field `dst_set` of every record is `descriptor_sets[0]` in the source (the loop binder
`_descritptor_set` is unused); `descriptor_sets[0]` is only evaluated
inside the loop body, so the loop over a nonempty set list never indexes
out of bounds. The buffer info of the first record is the per-frame material
uniform; the second record leaves `dst_binding` at its `Default` of 0. -/
def write_batch (descriptor_sets : List DescriptorSet) (diffuse : VulkanImage)
    (i : Nat) : List WriteDescriptorSet :=
  [ { dst_set := descriptor_sets.getD 0 0, dst_binding := 0,
      descriptor_count := 1, descriptor_type := .uniformBuffer,
      info := .bufferIdx i },
    { dst_set := descriptor_sets.getD 0 0, dst_binding := 0,
      descriptor_count := 1, descriptor_type := .combinedImageSampler,
      info := .image diffuse },
    { dst_set := descriptor_sets.getD 0 0, dst_binding := 1,
      descriptor_count := 1, descriptor_type := .uniformBuffer,
      info := .bufferIdx i },
    { dst_set := descriptor_sets.getD 0 0, dst_binding := 2,
      descriptor_count := 1, descriptor_type := .uniformBuffer,
      info := .bufferIdx i } ]

/-- Embeds `GLTFLoader::write_sets` (gltf.rs lines 185-259): allocates as many
descriptor sets as there are uniform buffers, then for each index `i`
issues one `update_descriptor_sets` call with the four writes of
`write_batch`. Returns the allocated sets and the issued write batches in
order. -/
def write_sets (diffuse_texture : VulkanImage)
    (uniforms_buffers : List VulkanBuffer) :
    List DescriptorSet × List (List WriteDescriptorSet) :=
  let descriptor_sets := allocate_descriptor_sets uniforms_buffers.length
  (descriptor_sets,
   (List.range descriptor_sets.length).map
     (write_batch descriptor_sets diffuse_texture))

/-- The reified result of `GLTFLoader::load_material`: the diffuse texture
that was created, the per-frame uniform buffers, the allocated descriptor
sets (the return value in the source) and the issued descriptor-write
batches. -/
structure LoadedMaterial where
  diffuse_texture : VulkanImage
  uniform_buffers : List VulkanBuffer
  descriptor_sets : List DescriptorSet
  writes : List (List WriteDescriptorSet)
  deriving Repr, DecidableEq

/-- Embeds `GLTFLoader::load_material` (gltf.rs lines 95-166): resolves the
diffuse texture — decoding an embedded view or a URI file, each decode
failure being a panic (`none`) — or synthesizes a 128×128 solid
opaque-white placeholder when the primitive has no base-color texture;
then creates the per-frame uniform buffers and writes the descriptor
sets. The URI branch passes the converted sampler to the image upload,
the view branch passes `None`. -/
def load_material (inst : VulkanInstance) (material : MaterialDef) :
    Option LoadedMaterial := do
  let diffuse_texture ← match material.baseColorTexture with
    | some (.view bufferIndex mimeType) =>
        (inst.decodeView bufferIndex mimeType).map
          (fun img => VulkanImage.fromImage img none)
    | some (.uri path mimeType) =>
        (inst.decodeFile path mimeType).map
          (fun img => VulkanImage.fromImage img (some ()))
    | none =>
        some (VulkanImage.fromColor (255, 255, 255, 255) 128 128)
  let binding : Material := { base_color := material.baseColorFactor }
  let uniform_buffers := create_uniform_buffers inst binding
  let (descriptor_sets, writes) := write_sets diffuse_texture uniform_buffers
  pure { diffuse_texture := diffuse_texture,
         uniform_buffers := uniform_buffers,
         descriptor_sets := descriptor_sets,
         writes := writes }

end GLTFLoader

/-- A glTF mesh: an optional name and a list of primitives. -/
structure MeshDef where
  name : Option String
  primitives : List Primitive
  deriving Repr, DecidableEq

/-- A glTF scene-graph node: an optional mesh reference and child nodes. -/
inductive GNode where
  | mk (mesh : Option MeshDef) (children : List GNode)

/-- A glTF scene: its root nodes. -/
structure SceneDef where
  nodes : List GNode

/-- A parsed glTF document (the output of `gltf::Gltf::from_reader` plus
`gltf::import_buffers`, both external crates): its scenes. Buffer data is
resolved inside the accessor lists of each `Primitive`. -/
structure Document where
  scenes : List SceneDef

namespace GLTFLoader

/-- The per-primitive worker body of `load_mesh_multithreaded` (gltf.rs
lines 74-86), applied to each primitive of the mesh: run `load_material`
then `load_primitive` and send the result (a worker panic, `none`, aborts
the whole `thread::scope`). -/
def load_primitives (inst : VulkanInstance) (name : Option String) :
    List Primitive → Option (List Mesh3D)
  | [] => some []
  | primitive :: rest => do
      let loaded_material ← load_material inst primitive.material
      let loaded_mesh ← load_primitive loaded_material.descriptor_sets name primitive
      let more ← load_primitives inst name rest
      pure (loaded_mesh :: more)

/-- Embeds `GLTFLoader::load_mesh_multithreaded` (gltf.rs lines 54-93): one
worker per primitive, results sent over a rendezvous channel sized to
the primitive count; the assembler performs exactly `primitive_len`
receives and pushes each mesh. The receive order depends on worker
completion time, so the source only fixes the *multiset* of loaded
meshes; the embedding lists them in primitive-declaration order (every
property proved about this function below concerns only the count, which
is invariant under that permutation). -/
def load_mesh_multithreaded (inst : VulkanInstance) (mesh : MeshDef) :
    Option (List Mesh3D) :=
  load_primitives inst mesh.name mesh.primitives

mutual

/-- Embeds `GLTFLoader::load_node` (gltf.rs lines 39-52): if the node carries a
mesh, load it; then recurse into the children. The meshes produced by
this node precede those of its children in the accumulating vector. -/
def load_node (inst : VulkanInstance) (node : GNode) :
    Option (List Mesh3D) :=
  match node with
  | .mk mesh children => do
      let own ← match mesh with
        | some m => load_mesh_multithreaded inst m
        | none => some []
      let rest ← load_node_list inst children
      pure (own ++ rest)

/-- The `node.children().for_each(..)` recursion of `load_node`, one
child at a time in order. -/
def load_node_list (inst : VulkanInstance) (nodes : List GNode) :
    Option (List Mesh3D) :=
  match nodes with
  | [] => some []
  | n :: rest => do
      let first ← load_node inst n
      let more ← load_node_list inst rest
      pure (first ++ more)

end

/-- The `doc.scenes().for_each(..)` loop of `GLTFLoader::load` (gltf.rs
lines 30-34): loads scene after scene, each contributing the meshes of
its root-node trees. -/
def load_scenes (inst : VulkanInstance) : List SceneDef → Option (List (List Mesh3D))
  | [] => some []
  | scene :: rest => do
      let first ← load_node_list inst scene.nodes
      let more ← load_scenes inst rest
      pure (first :: more)

/-- Embeds `GLTFLoader::load` (gltf.rs lines 21-37), from the parsed document on:
for every scene, for every root node, load the node tree, accumulating
all meshes into one flat vector forming the `Model3D`. -/
def load (inst : VulkanInstance) (doc : Document) : Option Model3D := do
  let meshes ← load_scenes inst doc.scenes
  pure { meshes := meshes.flatten }

mutual

/-- Total number of primitives over all mesh-bearing nodes reachable from
`node` (the node itself and, recursively, its children). -/
def primCountNode : GNode → Nat
  | .mk mesh children =>
      (match mesh with
       | some m => m.primitives.length
       | none => 0) + primCountNodeList children

/-- Sum of `primCountNode` over a list of nodes. -/
def primCountNodeList : List GNode → Nat
  | [] => 0
  | n :: rest => primCountNode n + primCountNodeList rest

end

/-- Total number of primitives reachable from any scene root of the
document. -/
def primCountDoc (doc : Document) : Nat :=
  (doc.scenes.map (fun scene => primCountNodeList scene.nodes)).sum

/-- Whether `load_material` completes without panicking for this material
slot under the given decoders. -/
def materialOk (inst : VulkanInstance) (material : MaterialDef) : Bool :=
  match material.baseColorTexture with
  | some (.view bufferIndex mimeType) =>
      (inst.decodeView bufferIndex mimeType).isSome
  | some (.uri path mimeType) => (inst.decodeFile path mimeType).isSome
  | none => true

/-- Validity of one primitive, as glTF validity bears on the loader: the
mandatory position and index accessors are present, the optional normal
and texture-coordinate accessors (glTF requires all attribute accessors
of a primitive to have equal counts) do not outnumber the positions, and
the texture of the material decodes. -/
def validPrimitive (inst : VulkanInstance) (p : Primitive) : Bool :=
  p.positions.isSome && p.indices.isSome &&
  (match p.positions, p.normals with
   | some ps, some ns => decide (ns.length ≤ ps.length)
   | _, none => true
   | none, some _ => true) &&
  (match p.positions, p.texCoords with
   | some ps, some ts => decide (ts.length ≤ ps.length)
   | _, none => true
   | none, some _ => true) &&
  materialOk inst p.material

mutual

/-- Every primitive reachable from `node` is valid. -/
def validNode (inst : VulkanInstance) : GNode → Bool
  | .mk mesh children =>
      (match mesh with
       | some m => m.primitives.all (validPrimitive inst)
       | none => true) && validNodeList inst children

/-- Every primitive reachable from any node of the list is valid. -/
def validNodeList (inst : VulkanInstance) : List GNode → Bool
  | [] => true
  | n :: rest => validNode inst n && validNodeList inst rest

end

/-- A valid document: every primitive reachable from any scene root is
valid. -/
def validDoc (inst : VulkanInstance) (doc : Document) : Bool :=
  doc.scenes.all (fun scene => validNodeList inst scene.nodes)

end GLTFLoader

end VentAssets

namespace VentWindow

/-- The normalized window-event variants produced by the backend and
consumed by the application handler (`vent_window::WindowEvent`, whose
defining module is outside the sampled files; variants are taken from
their construction in the Wayland backend and their consumption in
`vent-runtime/src/lib.rs`: `Close`, `Key`, `MouseButton`, `Resize`,
`Draw`, `MouseMotion`). -/
inductive WindowEvent where
  | close
  | key (key : Nat) (pressed : Bool)
  | mouseButton (button : Nat) (pressed : Bool)
  | resize (new_width new_height : Nat)
  | draw
  | mouseMotion (x y : Int)
  deriving Repr, DecidableEq

/-- The `State` struct of the Wayland backend (wayland/mod.rs lines 35-48).
Protocol object handles carry no data the claims observe, so each is
modelled as `Option Unit` recording only whether it has been set. -/
structure State where
  running : Bool
  width : Nat
  height : Nat
  base_surface : Option Unit
  buffer : Option Unit
  wm_base : Option Unit
  xdg_surface : Option (Unit × Unit)
  xdg_decoration_manager : Option Unit
  xdg_toplevel_decoration : Option Unit
  configured : Bool
  pending_events : List WindowEvent
  deriving Repr, DecidableEq

/-- An incoming protocol event, as matched by the `Dispatch`
implementations: `xdg_surface::Event::Configure`,
`xdg_toplevel::Event::Close`, `xdg_toplevel::Event::ConfigureBounds`,
`wl_keyboard::Event::Key`, `wl_seat::Event::Capabilities` and
`xdg_wm_base::Event::Ping`. -/
inductive ProtocolEvent where
  | xdgSurfaceConfigure (serial : Nat)
  | toplevelClose
  | toplevelConfigureBounds (width height : Nat)
  | keyboardKey (key serial time : Nat) (keyState : Nat)
  | seatCapabilities (hasKeyboard : Bool)
  | wmBasePing (serial : Nat)
  deriving Repr, DecidableEq

/-- An outgoing protocol request relevant to the configure handshake and
input binding: `ack_configure`, `wl_surface::attach` (always with a
buffer in the source call site), `wl_surface::commit`, `pong`, and
`get_keyboard`. -/
inductive Msg where
  | ackConfigure (serial : Nat)
  | attach
  | commit
  | pong (serial : Nat)
  | getKeyboard
  deriving Repr, DecidableEq

namespace State

/-- One incoming protocol event dispatched through the matching
`Dispatch::event` implementation (wayland/mod.rs lines 95-192): returns
the updated state and the protocol requests it sent, in order. `none`
models the panic of `state.base_surface.as_ref().unwrap()` in the
configure handler.

* Configure (lines 154-173): send `ack_configure(serial)`, set
  `configured`, then if a buffer is pending attach it and commit.
* Toplevel close (lines 184-186): push a normalized `Close` event.
* Toplevel configure-bounds (lines 187-190): record width/height.
* Keyboard key (lines 104-115): key 1 (ESC) clears `running`; the key
  state is ignored and no normalized event is pushed.
* Seat capabilities (lines 128-135): acquire a keyboard when advertised.
* Ping (lines 148-150): answer with `pong(serial)`. -/
def dispatchEvent (s : State) (e : ProtocolEvent) : Option (State × List Msg) :=
  match e with
  | .xdgSurfaceConfigure serial =>
      match s.base_surface with
      | none => none
      | some _ =>
          some ({ s with configured := true },
            Msg.ackConfigure serial ::
              (match s.buffer with
               | some _ => [Msg.attach, Msg.commit]
               | none => []))
  | .toplevelClose =>
      some ({ s with pending_events := s.pending_events ++ [WindowEvent.close] }, [])
  | .toplevelConfigureBounds w h =>
      some ({ s with width := w, height := h }, [])
  | .keyboardKey key _ _ _ =>
      if key = 1 then some ({ s with running := false }, []) else some (s, [])
  | .seatCapabilities hasKeyboard =>
      some (s, if hasKeyboard then [Msg.getKeyboard] else [])
  | .wmBasePing serial =>
      some (s, [Msg.pong serial])

/-- Embeds `event_queue.dispatch_pending(&mut state)`: every protocol event
queued by the transport is dispatched in arrival order; the sent requests
are concatenated in that order. -/
def dispatchPending (s : State) : List ProtocolEvent → Option (State × List Msg)
  | [] => some (s, [])
  | e :: rest => do
      let (s1, msgs) ← s.dispatchEvent e
      let (s2, more) ← s1.dispatchPending rest
      pure (s2, msgs ++ more)

end State

/-- The normalized events one protocol event contributes to
`pending_events`: the toplevel close handler pushes `Close`; no other
sampled handler pushes an event. -/
def normalizedOf : ProtocolEvent → List WindowEvent
  | .toplevelClose => [WindowEvent.close]
  | _ => []

/-- The outcome of (a bounded run of) `PlatformWindow::poll`: final
state, the normalized events delivered to the handler of the caller in order,
and the protocol requests sent in order. -/
structure PollResult where
  endState : State
  delivered : List WindowEvent
  sent : List Msg
  deriving Repr, DecidableEq

/-- One iteration of the `poll` loop body (wayland/mod.rs lines 328-339):
dispatch the pending incoming protocol events, drain `pending_events` to
the handler one at a time in order, then deliver one synthetic `Draw`
event. -/
def pollIteration (s : State) (incoming : List ProtocolEvent) :
    Option PollResult := do
  let (s1, msgs) ← s.dispatchPending incoming
  pure { endState := { s1 with pending_events := [] },
         delivered := s1.pending_events ++ [WindowEvent.draw],
         sent := msgs }

/-- Embeds `PlatformWindow::poll` (wayland/mod.rs lines 324-340) run against a
schedule assigning to each iteration the protocol events the transport
has queued for it: while `running` holds, perform one `pollIteration`;
the loop stops (in this bounded model) when `running` is false or the
schedule is exhausted. -/
def pollRun (s : State) : List (List ProtocolEvent) → Option PollResult
  | [] => some { endState := s, delivered := [], sent := [] }
  | batch :: rest =>
      if s.running then do
        let r1 ← pollIteration s batch
        let r2 ← pollRun r1.endState rest
        pure { endState := r2.endState,
               delivered := r1.delivered ++ r2.delivered,
               sent := r1.sent ++ r2.sent }
      else some { endState := s, delivered := [], sent := [] }

/-- The window attributes `create_window` reads (`WindowAttribs`, defined
outside the sampled files; fields taken from their uses in
`create_window` and `init_xdg_surface`). -/
structure WindowAttribs where
  width : Nat
  height : Nat
  deriving Repr, DecidableEq

/-- The backend state as `PlatformWindow::create_window` (wayland/mod.rs
lines 268-322) leaves it when entering the poll loop: running, with base
surface, wm_base and xdg surface/toplevel pair set, no pixel buffer, not
yet configured, the decoration manager left unbound (its binding is
commented out in the source), and no pending events. -/
def initialState (attribs : WindowAttribs) : State :=
  { running := true
    width := attribs.width
    height := attribs.height
    base_surface := some ()
    buffer := none
    wm_base := some ()
    xdg_surface := some ((), ())
    xdg_decoration_manager := none
    xdg_toplevel_decoration := none
    configured := false
    pending_events := [] }

/-- The surface-relevant requests `create_window` sends before the poll
loop: the initial `commit` with no attached buffer (wayland/mod.rs line
310). -/
def initialMsgs : List Msg := [Msg.commit]

/-- Holds iff the message is an `ack_configure`. -/
def Msg.isAck : Msg → Bool
  | .ackConfigure _ => true
  | _ => false

/-- Scans a message trace left to right carrying whether an
`ack_configure` has been seen: `true` iff no `attach` occurs before the
first `ack_configure` (given `seenAck` describes the prefix already
scanned). -/
def attachSafeFrom (seenAck : Bool) : List Msg → Bool
  | [] => true
  | m :: rest =>
      (match m with
       | .attach => seenAck
       | _ => true) && attachSafeFrom (seenAck || m.isAck) rest

/-- A message trace never attaches buffer content to the surface before
an `ack_configure` has been sent. -/
def attachSafe (trace : List Msg) : Bool := attachSafeFrom false trace

end VentWindow

namespace VentWindow

/-- Holds iff the message is a `wl_surface::attach`. -/
def Msg.isAttach : Msg → Bool
  | .attach => true
  | _ => false

/-- Scans a message trace carrying whether an `ack_configure` and whether
an `attach` have been seen: `true` iff no `commit` that follows an
`attach` (a commit presenting buffer content; the source never attaches a
null buffer) occurs before the first `ack_configure`. -/
def contentCommitSafeFrom (seenAck seenAttach : Bool) : List Msg → Bool
  | [] => true
  | m :: rest =>
      (match m with
       | .commit => !seenAttach || seenAck
       | _ => true) &&
      contentCommitSafeFrom (seenAck || m.isAck) (seenAttach || m.isAttach) rest

/-- A message trace never commits attached buffer content before an
`ack_configure` has been sent. -/
def contentCommitSafe (trace : List Msg) : Bool :=
  contentCommitSafeFrom false false trace

/-- Fixture: window attributes for concrete runs. -/
def attribs0 : WindowAttribs := { width := 800, height := 600 }

/-- Fixture: the backend state at loop entry, except that a pixel buffer
is pending (the scenario state for the configure/ack ordering claims). -/
def bufferedState : State :=
  { initialState attribs0 with buffer := some () }

end VentWindow

namespace VentAssets

namespace GLTFLoader

/-- Whether the normal and texture-coordinate overlays of `load_vertices`
stay in bounds of the position-derived vertex vector. -/
def overlays_fit (p : Primitive) (ps : List V3) : Bool :=
  (match p.normals with
   | some ns => decide (ns.length ≤ ps.length)
   | none => true) &&
  (match p.texCoords with
   | some ts => decide (ts.length ≤ ps.length)
   | none => true)

end GLTFLoader

/-- Fixture: a `VulkanInstance` with one swapchain image whose decoders
always fail. -/
def inst1 : VulkanInstance :=
  { swapchainImages := [()]
    decodeView := fun _ _ => none
    decodeFile := fun _ _ => none }

/-- Fixture: a `VulkanInstance` with three swapchain images whose
decoders always fail. -/
def inst3 : VulkanInstance :=
  { swapchainImages := [(), (), ()]
    decodeView := fun _ _ => none
    decodeFile := fun _ _ => none }

/-- Fixture: a material slot with no base-color texture. -/
def matNoTexture : MaterialDef :=
  { baseColorTexture := none, baseColorFactor := (1, 1, 1, 1) }

/-- Fixture: a well-formed two-position primitive with no normal and no
texture-coordinate accessors. -/
def primPlain : Primitive :=
  { positions := some [(1, 2, 3), (4, 5, 6)]
    normals := none
    texCoords := none
    indices := some [0, 1, 0]
    material := matNoTexture }

/-- Fixture: a primitive whose position accessor is absent. -/
def primNoPositions : Primitive :=
  { positions := none
    normals := none
    texCoords := none
    indices := some [0]
    material := matNoTexture }

/-- Fixture: a primitive whose index accessor is absent. -/
def primNoIndices : Primitive :=
  { positions := some [(1, 2, 3)]
    normals := none
    texCoords := none
    indices := none
    material := matNoTexture }

/-- Fixture: a primitive with three normals but only two positions (the
normal overlay indexes out of bounds). -/
def primExcessNormals : Primitive :=
  { positions := some [(1, 2, 3), (4, 5, 6)]
    normals := some [(0, 0, 1), (0, 1, 0), (1, 0, 0)]
    texCoords := none
    indices := some [0, 1, 0]
    material := matNoTexture }

/-- Fixture: the 128×128 opaque-white placeholder image. -/
def placeholderImage : VulkanImage :=
  VulkanImage.fromColor (255, 255, 255, 255) 128 128

/-- Fixture: the uniform buffers `load_material` creates under `inst3`
for the texture-less material. -/
def ubs3 : List VulkanBuffer :=
  GLTFLoader.create_uniform_buffers inst3 { base_color := (1, 1, 1, 1) }

/-- Fixture: the reified result of `load_material inst3 matNoTexture`. -/
def lm3 : GLTFLoader.LoadedMaterial :=
  { diffuse_texture := placeholderImage
    uniform_buffers := ubs3
    descriptor_sets := (GLTFLoader.write_sets placeholderImage ubs3).1
    writes := (GLTFLoader.write_sets placeholderImage ubs3).2 }

/-- Fixture: the scenario document of the spec — two scenes, the first with
one node bearing a two-primitive mesh, the second empty. -/
def doc2 : Document :=
  { scenes :=
      [ { nodes := [GNode.mk (some { name := some ("m"), primitives := [primPlain, primPlain] }) []] },
        { nodes := [] } ] }

end VentAssets

namespace VentAssets

namespace GLTFLoader

theorem overlay_isSome (upd : Vertex3D → α → Vertex3D) :
    ∀ (as_ : List α) (vs : List Vertex3D),
      (overlay upd vs as_).isSome = decide (as_.length ≤ vs.length)
  | [], vs => by simp [overlay]
  | _ :: as_, [] => by simp [overlay]
  | a :: as_, v :: vs => by
      simp [overlay, overlay_isSome upd as_ vs, Nat.succ_le_succ_iff]

theorem overlay_length (upd : Vertex3D → α → Vertex3D) :
    ∀ (as_ : List α) (vs ws : List Vertex3D),
      overlay upd vs as_ = some ws → ws.length = vs.length
  | [], vs, ws => by simp [overlay]; rintro rfl; rfl
  | _ :: as_, [], ws => by simp [overlay]
  | a :: as_, v :: vs, ws => by
      simp only [overlay, Option.map_eq_some']
      rintro ⟨rest, hrest, rfl⟩
      simp [overlay_length upd as_ vs rest hrest]

end GLTFLoader

end VentAssets

namespace VentAssets

open GLTFLoader

/-- C7: for a primitive with N position entries and no normal or
texture-coordinate accessors, the primitive loader produces exactly N
vertices, each carrying the position of the accessor and zero-valued normal
and texture-coordinate fields. -/
theorem c7_vertices_default_zero (p : Primitive) (ps : List V3)
    (idx : List Nat) (bg : List DescriptorSet) (nm : Option String)
    (hpos : p.positions = some ps) (hnorm : p.normals = none)
    (htex : p.texCoords = none) (hidx : p.indices = some idx) :
    load_vertices p =
      some (ps.map (fun position =>
        { position := position, tex_coord := (0, 0), normal := (0, 0, 0) })) ∧
    (load_vertices p).map List.length = some ps.length ∧
    load_primitive bg nm p =
      some { vertices := ps.map (fun position =>
               { position := position, tex_coord := (0, 0), normal := (0, 0, 0) })
             indices := idx, bind_group := some bg, name := nm } := by
  refine ⟨?_, ?_, ?_⟩
  · simp [load_vertices, hpos, hnorm, htex]
  · simp [load_vertices, hpos, hnorm, htex]
  · simp [load_primitive, load_vertices, hpos, hnorm, htex, hidx]

/-- Witness for C7 at the concrete two-position primitive `primPlain`. -/
theorem c7_vertices_default_zero_witness :
    load_vertices primPlain =
      some [{ position := (1, 2, 3), tex_coord := (0, 0), normal := (0, 0, 0) },
            { position := (4, 5, 6), tex_coord := (0, 0), normal := (0, 0, 0) }] ∧
    (load_vertices primPlain).map List.length = some 2 ∧
    load_primitive [0] (some ("m")) primPlain =
      some { vertices :=
               [{ position := (1, 2, 3), tex_coord := (0, 0), normal := (0, 0, 0) },
                { position := (4, 5, 6), tex_coord := (0, 0), normal := (0, 0, 0) }]
             indices := [0, 1, 0], bind_group := some [0], name := some ("m") } := by
  have h := c7_vertices_default_zero primPlain [(1, 2, 3), (4, 5, 6)] [0, 1, 0]
    [0] (some ("m")) rfl rfl rfl rfl
  simpa using h

theorem load_vertices_total_iff (p : Primitive) (ps : List V3)
    (hpos : p.positions = some ps) :
    (load_vertices p).isSome = overlays_fit p ps := by
  rcases hn : p.normals with _ | ns <;> rcases ht : p.texCoords with _ | ts
  · simp [load_vertices, overlays_fit, hpos, hn, ht]
  · simp [load_vertices, overlays_fit, hpos, hn, ht, overlay_isSome]
  · simp [load_vertices, overlays_fit, hpos, hn, ht, overlay_isSome]
  · rcases h1 : overlay (fun v n => { v with normal := n })
        (ps.map (fun position =>
          { position := position, tex_coord := 0, normal := 0 })) ns
      with _ | vs1
    · have hlen : ¬ ns.length ≤ ps.length := by
        have h2 := overlay_isSome (fun v n => { v with normal := n }) ns
          (ps.map (fun position =>
            { position := position, tex_coord := 0, normal := 0 }))
        rw [h1] at h2
        simpa using h2.symm
      simp [load_vertices, overlays_fit, hpos, hn, ht, h1, hlen]
    · have hlen1 : vs1.length = ps.length := by
        have h2 := overlay_length (fun v n => { v with normal := n }) ns
          (ps.map (fun position =>
            { position := position, tex_coord := 0, normal := 0 }))
          vs1 h1
        simpa using h2
      have hns : ns.length ≤ ps.length := by
        have h2 := overlay_isSome (fun v n => { v with normal := n }) ns
          (ps.map (fun position =>
            { position := position, tex_coord := 0, normal := 0 }))
        rw [h1] at h2
        simpa using h2.symm
      simp [load_vertices, overlays_fit, hpos, hn, ht, h1, hns,
        overlay_isSome, hlen1]

/-- C10: vertex assembly is total exactly when the normal and
texture-coordinate accessors yield at most as many entries as the
position accessor: within that bound the overlay indexing is in bounds,
beyond it the out-of-bounds indexing branch (a panic, modelled `none`)
is reached. -/
theorem c10_overlay_bounds (p : Primitive) (ps : List V3)
    (hpos : p.positions = some ps) :
    (load_vertices p).isSome = overlays_fit p ps :=
  load_vertices_total_iff p ps hpos

/-- Witness for C10 at `primExcessNormals` (three normals over two
positions: both sides evaluate to `false`, the overlay panics). -/
theorem c10_overlay_bounds_witness :
    (load_vertices primExcessNormals).isSome =
      overlays_fit primExcessNormals [(1, 2, 3), (4, 5, 6)] := by
  have h := c10_overlay_bounds primExcessNormals [(1, 2, 3), (4, 5, 6)] rfl
  simpa using h

/-- C3 (code bug): a primitive with an absent position accessor — and
likewise an absent index accessor — makes `load_primitive` abort via
`unwrap` (modelled `none`) instead of returning a `MissingAttributeError`
value; the abort propagates through the worker scope of the mesh assembler. -/
theorem c3_missing_accessor_aborts :
    load_primitive [] none primNoPositions = none ∧
    load_primitive [] none primNoIndices = none ∧
    load_mesh_multithreaded inst1 { name := none, primitives := [primNoPositions] } = none := by
  decide

/-- C5 (code bug): the descriptor-set write loop of `write_sets` issues
one batch per frame-in-flight uniform buffer, but every write of every
batch targets `descriptor_sets[0]`; with three frames the allocated sets
are `[0, 1, 2]`, three batches are issued, and the batch for index 1
never touches set 1. -/
theorem c5_write_sets_always_first_set :
    (write_sets (VulkanImage.fromColor (255, 255, 255, 255) 128 128)
        (create_uniform_buffers inst3 { base_color := (1, 1, 1, 1) })).1 = [0, 1, 2] ∧
    (write_sets (VulkanImage.fromColor (255, 255, 255, 255) 128 128)
        (create_uniform_buffers inst3 { base_color := (1, 1, 1, 1) })).2.length = 3 ∧
    ((write_sets (VulkanImage.fromColor (255, 255, 255, 255) 128 128)
        (create_uniform_buffers inst3 { base_color := (1, 1, 1, 1) })).2.all
      (fun batch => batch.all (fun w => w.dst_set == 0))) = true ∧
    (((write_sets (VulkanImage.fromColor (255, 255, 255, 255) 128 128)
        (create_uniform_buffers inst3 { base_color := (1, 1, 1, 1) })).2.getD 1 []).all
      (fun w => w.dst_set != 1)) = true := by
  decide

end VentAssets

namespace VentAssets

open GLTFLoader

theorem load_material_shape (inst : VulkanInstance) (m : MaterialDef)
    (lm : LoadedMaterial) (h : load_material inst m = some lm) :
    lm.uniform_buffers = create_uniform_buffers inst { base_color := m.baseColorFactor } ∧
    lm.descriptor_sets = (write_sets lm.diffuse_texture lm.uniform_buffers).1 ∧
    lm.writes = (write_sets lm.diffuse_texture lm.uniform_buffers).2 := by
  rcases hm : m.baseColorTexture with _ | src
  · simp only [load_material, hm] at h
    cases h
    simp
  · rcases src with ⟨bufferIndex, mimeType⟩ | ⟨path, mimeType⟩
    · rcases hd : inst.decodeView bufferIndex mimeType with _ | img
      · simp [load_material, hm, hd] at h
      · simp only [load_material, hm, hd] at h
        cases h
        simp
    · rcases hd : inst.decodeFile path mimeType with _ | img
      · simp [load_material, hm, hd] at h
      · simp only [load_material, hm, hd] at h
        cases h
        simp

theorem load_material_diffuse_placeholder (inst : VulkanInstance)
    (m : MaterialDef) (lm : LoadedMaterial) (hm : m.baseColorTexture = none)
    (h : load_material inst m = some lm) :
    lm.diffuse_texture = VulkanImage.fromColor (255, 255, 255, 255) 128 128 := by
  simp only [load_material, hm] at h
  cases h
  simp

/-- C8: for every material that loads, the number of per-frame uniform
buffers equals the swapchain image count of the GPU context, and that
many descriptor sets are allocated. -/
theorem c8_per_frame_replication (inst : VulkanInstance) (m : MaterialDef)
    (lm : LoadedMaterial) (h : load_material inst m = some lm) :
    lm.uniform_buffers.length = inst.swapchainImages.length ∧
    lm.descriptor_sets.length = inst.swapchainImages.length := by
  obtain ⟨hu, hd, -⟩ := load_material_shape inst m lm h
  rw [hu, hd]
  simp [create_uniform_buffers, write_sets, allocate_descriptor_sets, hu]

/-- Witness for C8: three swapchain images yield three uniform buffers
and three descriptor sets. -/
theorem c8_per_frame_replication_witness :
    lm3.uniform_buffers.length = inst3.swapchainImages.length ∧
    lm3.descriptor_sets.length = inst3.swapchainImages.length :=
  c8_per_frame_replication inst3 matNoTexture lm3 (by decide)

/-- C9: a material with no base-color texture gets a 128×128 solid
opaque-white placeholder diffuse image, and every issued descriptor-write
batch binds that placeholder as the combined image+sampler. -/
theorem c9_placeholder_texture (inst : VulkanInstance) (m : MaterialDef)
    (lm : LoadedMaterial) (hm : m.baseColorTexture = none)
    (h : load_material inst m = some lm) :
    lm.diffuse_texture = VulkanImage.fromColor (255, 255, 255, 255) 128 128 ∧
    lm.writes.length = inst.swapchainImages.length ∧
    lm.writes.all (fun batch => batch.any (fun w =>
      decide (w.descriptor_type = DescriptorType.combinedImageSampler ∧
        w.info = WriteInfo.image
          (VulkanImage.fromColor (255, 255, 255, 255) 128 128)))) = true := by
  have hdiff := load_material_diffuse_placeholder inst m lm hm h
  obtain ⟨hu, -, hw⟩ := load_material_shape inst m lm h
  refine ⟨hdiff, ?_, ?_⟩
  · rw [hw, hu]
    simp [write_sets, allocate_descriptor_sets, create_uniform_buffers]
  · rw [hw, hdiff]
    simp only [List.all_eq_true]
    intro batch hb
    simp only [write_sets] at hb
    obtain ⟨i, -, rfl⟩ := List.mem_map.mp hb
    simp [write_batch]

/-- Witness for C9 at the texture-less material under `inst3`. -/
theorem c9_placeholder_texture_witness :
    lm3.diffuse_texture = VulkanImage.fromColor (255, 255, 255, 255) 128 128 ∧
    lm3.writes.length = inst3.swapchainImages.length ∧
    lm3.writes.all (fun batch => batch.any (fun w =>
      decide (w.descriptor_type = DescriptorType.combinedImageSampler ∧
        w.info = WriteInfo.image
          (VulkanImage.fromColor (255, 255, 255, 255) 128 128)))) = true :=
  c9_placeholder_texture inst3 matNoTexture lm3 rfl (by decide)

end VentAssets

namespace VentWindow

theorem attachSafeFrom_true : ∀ (t : List Msg), attachSafeFrom true t = true
  | [] => rfl
  | m :: rest => by
      simp [attachSafeFrom, attachSafeFrom_true rest]
      cases m <;> simp

theorem attachSafeFrom_of_false (t : List Msg) (b : Bool)
    (h : attachSafeFrom false t = true) : attachSafeFrom b t = true := by
  cases b
  · exact h
  · exact attachSafeFrom_true t

theorem attachSafeFrom_append (b : Bool) :
    ∀ (xs ys : List Msg), attachSafeFrom b xs = true →
      attachSafeFrom false ys = true → attachSafeFrom b (xs ++ ys) = true
  | [], ys, _, hys => attachSafeFrom_of_false ys b hys
  | m :: xs, ys, hxs, hys => by
      simp only [attachSafeFrom, Bool.and_eq_true] at hxs
      simp only [List.cons_append, attachSafeFrom, Bool.and_eq_true]
      exact ⟨hxs.1, attachSafeFrom_append _ xs ys hxs.2 hys⟩

theorem attachSafe_append (xs ys : List Msg) (hxs : attachSafe xs = true)
    (hys : attachSafe ys = true) : attachSafe (xs ++ ys) = true :=
  attachSafeFrom_append false xs ys hxs hys

theorem dispatchEvent_sent_attachSafe (s : State) (e : ProtocolEvent)
    (s' : State) (msgs : List Msg)
    (h : s.dispatchEvent e = some (s', msgs)) : attachSafe msgs = true := by
  cases e with
  | xdgSurfaceConfigure serial =>
      rcases hb : s.base_surface with _ | u
      · simp [State.dispatchEvent, hb] at h
      · simp only [State.dispatchEvent, hb] at h
        cases h
        rcases s.buffer with _ | v <;>
          simp [attachSafe, attachSafeFrom, Msg.isAck, attachSafeFrom_true]
  | toplevelClose =>
      simp only [State.dispatchEvent] at h
      cases h
      rfl
  | toplevelConfigureBounds w hh =>
      simp only [State.dispatchEvent] at h
      cases h
      rfl
  | keyboardKey key serial time keyState =>
      simp only [State.dispatchEvent] at h
      split at h <;> (cases h; rfl)
  | seatCapabilities hasKeyboard =>
      simp only [State.dispatchEvent] at h
      cases h
      cases hasKeyboard <;> rfl
  | wmBasePing serial =>
      simp only [State.dispatchEvent] at h
      cases h
      rfl

theorem dispatchPending_sent_attachSafe (evts : List ProtocolEvent) :
    ∀ (s s1 : State) (msgs : List Msg),
      s.dispatchPending evts = some (s1, msgs) → attachSafe msgs = true := by
  induction evts with
  | nil =>
      intro s s1 msgs h
      simp only [State.dispatchPending] at h
      cases h
      rfl
  | cons e rest ih =>
      intro s s1 msgs h
      simp only [State.dispatchPending, Option.bind_eq_bind, bind,
        Option.bind_eq_some] at h
      obtain ⟨⟨sa, ma⟩, ha, h⟩ := h
      obtain ⟨⟨sb, mb⟩, hb, h⟩ := h
      cases h
      exact attachSafe_append ma mb
        (dispatchEvent_sent_attachSafe s e sa ma ha) (ih sa sb mb hb)

theorem pollIteration_sent_attachSafe (s : State)
    (incoming : List ProtocolEvent) (r : PollResult)
    (h : pollIteration s incoming = some r) : attachSafe r.sent = true := by
  simp only [pollIteration, Option.bind_eq_bind, bind, Option.bind_eq_some] at h
  obtain ⟨⟨s1, msgs⟩, h1, h⟩ := h
  cases h
  exact dispatchPending_sent_attachSafe incoming s s1 msgs h1

theorem pollRun_sent_attachSafe :
    ∀ (batches : List (List ProtocolEvent)) (s : State) (r : PollResult),
      pollRun s batches = some r → attachSafe r.sent = true
  | [], s, r, h => by
      simp only [pollRun] at h
      cases h
      rfl
  | batch :: rest, s, r, h => by
      simp only [pollRun] at h
      split at h
      · simp only [Option.bind_eq_bind, bind, Option.bind_eq_some] at h
        obtain ⟨r1, h1, h⟩ := h
        obtain ⟨r2, h2, h⟩ := h
        cases h
        exact attachSafe_append r1.sent r2.sent
          (pollIteration_sent_attachSafe s batch r1 h1)
          (pollRun_sent_attachSafe rest r1.endState r2 h2)
      · cases h
        rfl

theorem contentCommitSafeFrom_of_attachSafeFrom :
    ∀ (t : List Msg) (seenAck seenAttach : Bool),
      attachSafeFrom seenAck t = true →
      (seenAttach = true → seenAck = true) →
      contentCommitSafeFrom seenAck seenAttach t = true
  | [], _, _, _, _ => rfl
  | m :: rest, seenAck, seenAttach, hsafe, hinv => by
      simp only [attachSafeFrom, Bool.and_eq_true] at hsafe
      simp only [contentCommitSafeFrom, Bool.and_eq_true]
      constructor
      · cases m <;> simp_all
        cases seenAttach
        · simp
        · simp [hinv rfl]
      · refine contentCommitSafeFrom_of_attachSafeFrom rest _ _ hsafe.2 ?_
        intro hatt
        rcases m with serial | _ | _ | serial | _
        · simp [Msg.isAck]
        · have := hsafe.1
          simp [Msg.isAttach] at hatt ⊢
          simp at this
          simp [this]
        · simp [Msg.isAttach] at hatt hinv ⊢
          simp [hinv hatt]
        · simp [Msg.isAttach] at hatt hinv ⊢
          simp [hinv hatt]
        · simp [Msg.isAttach] at hatt hinv ⊢
          simp [hinv hatt]

theorem contentCommitSafe_of_attachSafe (t : List Msg)
    (h : attachSafe t = true) : contentCommitSafe t = true :=
  contentCommitSafeFrom_of_attachSafeFrom t false false h (by simp)

end VentWindow

namespace VentWindow

/-- C2: in every run of the backend no buffer-content attach or commit is
sent before an `ack_configure` (the whole sent trace — the bare startup
commit included — is attach/commit safe), and on receipt of a configure
event the handler sends `ack_configure(serial)` exactly once, first, and
only then attaches and commits the pending pixel buffer if there is one,
marking the surface configured. -/
theorem c2_ack_before_attach (s : State) (batches : List (List ProtocolEvent))
    (r : PollResult) (serial : Nat) (s' : State) (msgs : List Msg)
    (hrun : pollRun s batches = some r)
    (hevt : s.dispatchEvent (ProtocolEvent.xdgSurfaceConfigure serial) =
      some (s', msgs)) :
    attachSafe (initialMsgs ++ r.sent) = true ∧
    contentCommitSafe (initialMsgs ++ r.sent) = true ∧
    msgs = Msg.ackConfigure serial ::
      (match s.buffer with
       | some _ => [Msg.attach, Msg.commit]
       | none => []) ∧
    msgs.count (Msg.ackConfigure serial) = 1 ∧
    s'.configured = true := by
  have hsent : attachSafe r.sent = true :=
    pollRun_sent_attachSafe batches s r hrun
  have hfull : attachSafe (initialMsgs ++ r.sent) = true := by
    simpa [initialMsgs, attachSafe, attachSafeFrom, Msg.isAck] using hsent
  refine ⟨hfull, contentCommitSafe_of_attachSafe _ hfull, ?_⟩
  rcases hb : s.base_surface with _ | u
  · simp [State.dispatchEvent, hb] at hevt
  · simp only [State.dispatchEvent, hb] at hevt
    cases hevt
    rcases s.buffer with _ | v <;> simp

/-- Witness for C2: a buffered, surface-backed state receiving
`configure(serial = 7)` inside a one-iteration run. -/
theorem c2_ack_before_attach_witness :
    attachSafe (initialMsgs ++ [Msg.ackConfigure 7, Msg.attach, Msg.commit]) = true ∧
    contentCommitSafe (initialMsgs ++ [Msg.ackConfigure 7, Msg.attach, Msg.commit]) = true ∧
    [Msg.ackConfigure 7, Msg.attach, Msg.commit] = Msg.ackConfigure 7 ::
      (match bufferedState.buffer with
       | some _ => [Msg.attach, Msg.commit]
       | none => []) ∧
    ([Msg.ackConfigure 7, Msg.attach, Msg.commit] : List Msg).count
      (Msg.ackConfigure 7) = 1 ∧
    ({ bufferedState with configured := true } : State).configured = true := by
  have h := c2_ack_before_attach bufferedState
    [[ProtocolEvent.xdgSurfaceConfigure 7]]
    { endState := { bufferedState with configured := true, pending_events := [] }
      delivered := [WindowEvent.draw]
      sent := [Msg.ackConfigure 7, Msg.attach, Msg.commit] }
    7 { bufferedState with configured := true }
    [Msg.ackConfigure 7, Msg.attach, Msg.commit]
    (by decide) (by decide)
  simpa using h

theorem dispatchEvent_pending (s : State) (e : ProtocolEvent) (s' : State)
    (msgs : List Msg) (h : s.dispatchEvent e = some (s', msgs)) :
    s'.pending_events = s.pending_events ++ normalizedOf e := by
  cases e with
  | xdgSurfaceConfigure serial =>
      rcases hb : s.base_surface with _ | u
      · simp [State.dispatchEvent, hb] at h
      · simp only [State.dispatchEvent, hb] at h
        cases h
        simp [normalizedOf]
  | toplevelClose =>
      simp only [State.dispatchEvent] at h
      cases h
      simp [normalizedOf]
  | toplevelConfigureBounds w hh =>
      simp only [State.dispatchEvent] at h
      cases h
      simp [normalizedOf]
  | keyboardKey key serial time keyState =>
      simp only [State.dispatchEvent] at h
      split at h <;> (cases h; simp [normalizedOf])
  | seatCapabilities hasKeyboard =>
      simp only [State.dispatchEvent] at h
      cases h
      simp [normalizedOf]
  | wmBasePing serial =>
      simp only [State.dispatchEvent] at h
      cases h
      simp [normalizedOf]

theorem dispatchPending_pending (evts : List ProtocolEvent) :
    ∀ (s s1 : State) (msgs : List Msg),
      s.dispatchPending evts = some (s1, msgs) →
      s1.pending_events = s.pending_events ++ (evts.map normalizedOf).flatten := by
  induction evts with
  | nil =>
      intro s s1 msgs h
      simp only [State.dispatchPending] at h
      cases h
      simp
  | cons e rest ih =>
      intro s s1 msgs h
      simp only [State.dispatchPending, Option.bind_eq_bind, bind,
        Option.bind_eq_some] at h
      obtain ⟨⟨sa, ma⟩, ha, h⟩ := h
      obtain ⟨⟨sb, mb⟩, hb, h⟩ := h
      cases h
      rw [ih sa sb mb hb, dispatchEvent_pending s e sa ma ha]
      simp [List.append_assoc]

theorem normalized_no_draw :
    ∀ (evts : List ProtocolEvent),
      ((evts.map normalizedOf).flatten).count WindowEvent.draw = 0
  | [] => rfl
  | e :: rest => by
      simp only [List.map_cons, List.flatten_cons, List.count_append]
      rw [normalized_no_draw rest]
      cases e <;> simp [normalizedOf]

/-- C6: in a poll-loop iteration entered with an empty queue (as every
iteration is: the queue starts empty and is drained each iteration), the
events delivered to the handler are exactly the normalized events of the
incoming protocol events in arrival order, followed by exactly one
synthetic `Draw`; the queue is empty again afterwards. -/
theorem c6_in_order_delivery (s : State) (incoming : List ProtocolEvent)
    (r : PollResult) (hpe : s.pending_events = [])
    (hit : pollIteration s incoming = some r) :
    r.delivered = (incoming.map normalizedOf).flatten ++ [WindowEvent.draw] ∧
    r.delivered.count WindowEvent.draw = 1 ∧
    r.endState.pending_events = [] := by
  simp only [pollIteration, Option.bind_eq_bind, bind, Option.bind_eq_some] at hit
  obtain ⟨⟨s1, msgs⟩, h1, hit⟩ := hit
  cases hit
  have hp := dispatchPending_pending incoming s s1 msgs h1
  rw [hpe] at hp
  simp only [List.nil_append] at hp
  refine ⟨by simp [hp], ?_, rfl⟩
  simp [hp, List.count_append, normalized_no_draw incoming]

/-- Witness for C6: an iteration receiving a toplevel close and a ping
delivers exactly `[Close, Draw]`. -/
theorem c6_in_order_delivery_witness :
    ([WindowEvent.close, WindowEvent.draw] : List WindowEvent) =
      (([ProtocolEvent.toplevelClose, ProtocolEvent.wmBasePing 3].map
        normalizedOf).flatten ++ [WindowEvent.draw]) ∧
    ([WindowEvent.close, WindowEvent.draw] : List WindowEvent).count
      WindowEvent.draw = 1 ∧
    (initialState attribs0).pending_events = [] := by
  have h := c6_in_order_delivery (initialState attribs0)
    [ProtocolEvent.toplevelClose, ProtocolEvent.wmBasePing 3]
    { endState := initialState attribs0
      delivered := [WindowEvent.close, WindowEvent.draw]
      sent := [Msg.pong 3] }
    rfl (by decide)
  simpa using h

/-- C4 (code bug): a toplevel `Close` protocol event results in exactly
one normalized `Close` delivered, but the `running` flag stays `true` and
the loop does not terminate — the next scheduled iteration still runs and
delivers another `Draw` (the close handler only queues the event; nothing
clears `running`). -/
theorem c4_close_leaves_loop_running :
    pollRun (initialState attribs0) [[ProtocolEvent.toplevelClose], []] =
      some { endState := initialState attribs0
             delivered := [WindowEvent.close, WindowEvent.draw, WindowEvent.draw]
             sent := [] } ∧
    (pollRun (initialState attribs0) [[ProtocolEvent.toplevelClose], []]).map
      (fun r => r.endState.running) = some true ∧
    ([WindowEvent.close, WindowEvent.draw, WindowEvent.draw] : List WindowEvent).count
      WindowEvent.close = 1 := by
  decide

end VentWindow

namespace VentAssets

open GLTFLoader

theorem load_material_isSome (inst : VulkanInstance) (m : MaterialDef)
    (h : materialOk inst m = true) : (load_material inst m).isSome = true := by
  rcases hm : m.baseColorTexture with _ | src
  · simp [load_material, hm]
  · rcases src with ⟨bufferIndex, mimeType⟩ | ⟨path, mimeType⟩
    · rcases hd : inst.decodeView bufferIndex mimeType with _ | img
      · simp [materialOk, hm, hd] at h
      · simp [load_material, hm, hd]
    · rcases hd : inst.decodeFile path mimeType with _ | img
      · simp [materialOk, hm, hd] at h
      · simp [load_material, hm, hd]

theorem load_primitive_isSome (bg : List DescriptorSet) (nm : Option String)
    (inst : VulkanInstance) (p : Primitive)
    (h : validPrimitive inst p = true) :
    (load_primitive bg nm p).isSome = true := by
  simp only [validPrimitive, Bool.and_eq_true] at h
  obtain ⟨⟨⟨⟨hpos, hidx⟩, hn⟩, ht⟩, -⟩ := h
  rcases hp : p.positions with _ | ps
  · rw [hp] at hpos
    simp at hpos
  · have hfit : overlays_fit p ps = true := by
      rcases hnn : p.normals with _ | ns <;> rcases htt : p.texCoords with _ | ts <;>
        simp_all [overlays_fit]
    have hv : (load_vertices p).isSome = true :=
      (load_vertices_total_iff p ps hp).trans hfit
    rcases hvs : load_vertices p with _ | vs
    · rw [hvs] at hv
      simp at hv
    · rcases hi : p.indices with _ | idx
      · rw [hi] at hidx
        simp at hidx
      · simp [load_primitive, hvs, hi]

theorem load_primitives_count (inst : VulkanInstance) (nm : Option String) :
    ∀ ps : List Primitive, ps.all (validPrimitive inst) = true →
      ∃ l, load_primitives inst nm ps = some l ∧ l.length = ps.length := by
  intro ps
  induction ps with
  | nil =>
      intro _
      exact ⟨[], rfl, rfl⟩
  | cons p rest ih =>
      intro h
      simp only [List.all_cons, Bool.and_eq_true] at h
      obtain ⟨hp, hrest⟩ := h
      obtain ⟨l, hl, hlen⟩ := ih hrest
      have hmat : (load_material inst p.material).isSome = true := by
        have hm : materialOk inst p.material = true := by
          simp only [validPrimitive, Bool.and_eq_true] at hp
          exact hp.2
        exact load_material_isSome inst p.material hm
      rcases hlm : load_material inst p.material with _ | lm
      · rw [hlm] at hmat
        simp at hmat
      · have hprim := load_primitive_isSome lm.descriptor_sets nm inst p hp
        rcases hpr : load_primitive lm.descriptor_sets nm p with _ | mesh
        · rw [hpr] at hprim
          simp at hprim
        · exact ⟨mesh :: l, by simp [load_primitives, hlm, hpr, hl], by simp [hlen]⟩

theorem load_mesh_multithreaded_count (inst : VulkanInstance) (mesh : MeshDef)
    (h : mesh.primitives.all (validPrimitive inst) = true) :
    ∃ l, load_mesh_multithreaded inst mesh = some l ∧
      l.length = mesh.primitives.length :=
  load_primitives_count inst mesh.name mesh.primitives h

mutual

theorem load_node_count (inst : VulkanInstance) (n : GNode)
    (h : validNode inst n = true) :
    ∃ l, load_node inst n = some l ∧ l.length = primCountNode n := by
  rcases n with ⟨mesh, children⟩
  rw [validNode.eq_def, Bool.and_eq_true] at h
  obtain ⟨hmesh, hchildren⟩ := h
  obtain ⟨lc, hlc, hlcLen⟩ := load_node_list_count inst children hchildren
  rcases mesh with _ | m
  · refine ⟨lc, ?_, ?_⟩
    · simp [load_node, hlc]
    · simp [primCountNode, hlcLen]
  · obtain ⟨lm, hlm, hlmLen⟩ := load_mesh_multithreaded_count inst m hmesh
    refine ⟨lm ++ lc, ?_, ?_⟩
    · simp [load_node, hlm, hlc]
    · simp [primCountNode, hlmLen, hlcLen]

theorem load_node_list_count (inst : VulkanInstance) (ns : List GNode)
    (h : validNodeList inst ns = true) :
    ∃ l, load_node_list inst ns = some l ∧ l.length = primCountNodeList ns := by
  match ns with
  | [] => exact ⟨[], rfl, rfl⟩
  | n :: rest =>
      rw [validNodeList.eq_def, Bool.and_eq_true] at h
      obtain ⟨hn, hrest⟩ := h
      obtain ⟨l1, hl1, hl1Len⟩ := load_node_count inst n hn
      obtain ⟨l2, hl2, hl2Len⟩ := load_node_list_count inst rest hrest
      refine ⟨l1 ++ l2, ?_, ?_⟩
      · simp [load_node_list, hl1, hl2]
      · simp [primCountNodeList, hl1Len, hl2Len]

end

theorem load_scenes_count (inst : VulkanInstance) :
    ∀ scenes : List SceneDef,
      scenes.all (fun scene => validNodeList inst scene.nodes) = true →
      ∃ ls, load_scenes inst scenes = some ls ∧
        (ls.map List.length).sum =
          (scenes.map (fun scene => primCountNodeList scene.nodes)).sum := by
  intro scenes
  induction scenes with
  | nil =>
      intro _
      exact ⟨[], rfl, rfl⟩
  | cons sc rest ih =>
      intro h
      simp only [List.all_cons, Bool.and_eq_true] at h
      obtain ⟨hsc, hrest⟩ := h
      obtain ⟨ls, hls, hsum⟩ := ih hrest
      obtain ⟨l1, hl1, hl1Len⟩ := load_node_list_count inst sc.nodes hsc
      refine ⟨l1 :: ls, ?_, ?_⟩
      · simp [load_scenes, hl1, hls]
      · simp [hsum, hl1Len]

/-- C1: for every valid document, `load` returns a model whose mesh-list
length equals the total number of primitives summed over every
mesh-bearing node reachable (recursively through children) from any
scene root. -/
theorem c1_mesh_count (inst : VulkanInstance) (doc : Document)
    (h : validDoc inst doc = true) :
    (load inst doc).isSome = true ∧
    (load inst doc).map (fun model => model.meshes.length) =
      some (primCountDoc doc) := by
  rw [validDoc] at h
  obtain ⟨ls, hls, hsum⟩ := load_scenes_count inst doc.scenes h
  have hload : load inst doc = some { meshes := ls.flatten } := by
    simp [load, hls]
  refine ⟨by simp [hload], ?_⟩
  rw [hload]
  simp [primCountDoc, List.length_flatten, hsum]

/-- Witness for C1 at the spec scenario `doc2` (two scenes, one node
with a two-primitive mesh, second scene empty): two meshes. -/
theorem c1_mesh_count_witness :
    (load inst1 doc2).isSome = true ∧
    (load inst1 doc2).map (fun model => model.meshes.length) = some 2 := by
  have h := c1_mesh_count inst1 doc2 (by decide)
  simpa using h

end VentAssets
